import Mathlib

/-!
Verification of the payload state machine of the update-engine client
(`src/payload_state.h`).  The repository ships only the class declaration
(`payload_state.h`); the method bodies of `payload_state.cc` are not part of
the source tree, so every transition below is modelled from the
specification's words (§4.1–§4.6 of the spec), while the inline accessor
bodies present in the header (`GetCurrentUrl`,
`GetCurrentBytesDownloaded`, `GetTotalBytesDownloaded`, and the trivial
getters) are translated directly from the header's code.

Machine integers: every counter in the class is a non-negative integer
(`int`, `uint32_t`, `int64_t`, `uint64_t` in the header) whose value stays
far below any overflow boundary in all the properties considered here, so
they are modelled as `Nat`.  Wall-clock and monotonic instants are
microseconds since the epoch, modelled as `Nat` (`base::Time` stores
microseconds; the epoch itself is `0`).
-/

namespace UpdateEngine

/-- Number of valid download sources.  The spec (§6) lists the sources
`{HttpsServer, HttpServer, HttpPeer}`; the sentinel `kNumDownloadSources`
is used as the extra slot of the two byte-counter arrays
(`payload_state.h` lines 440, 448: arrays of size `kNumDownloadSources + 1`). -/
def kNumDownloadSources : Nat := 3

/-- Modelled from the spec: the `OmahaResponse` structure consumed by
`SetResponse` is declared in `payload_state_interface.h`, which is not under
`src/`.  Per spec §4.2 the fields that affect the payload state are the
manifest version, payload size, SHA-256 hash, metadata size, metadata
signature, the ordered payload URL list, and whether the payload is a delta
payload. -/
structure OmahaResponse where
  version : String
  payload_size : Nat
  sha256_hex : String
  metadata_size : Nat
  metadata_sig : String
  payload_urls : List String
  is_delta_payload : Bool

/-- The state held by the `PayloadState` class (`payload_state.h` lines
352–464), with the persisted keys `previous-boot-id` and
`system-updated-marker` (spec §6) modelled as part of the same state.
Field names keep the source's trailing-underscore member names. -/
structure PayloadState where
  response_ : OmahaResponse
  response_signature_ : String
  payload_attempt_number_ : Nat
  full_payload_attempt_number_ : Nat
  url_index_ : Nat
  url_failure_count_ : Nat
  url_switch_count_ : Nat
  current_download_source_ : Nat
  num_responses_seen_ : Nat
  num_reboots_ : Nat
  backoff_expiry_time_ : Nat
  update_timestamp_start_ : Nat
  update_timestamp_end_ : Nat
  update_duration_uptime_ : Nat
  update_duration_uptime_timestamp_ : Nat
  current_bytes_downloaded_ : Fin (kNumDownloadSources + 1) → Nat
  total_bytes_downloaded_ : Fin (kNumDownloadSources + 1) → Nat
  candidate_urls_ : List String
  rollback_version_ : String
  prev_boot_id_ : String
  system_updated_marker_ : Option Nat

/-- The all-zero byte-counter array (one slot per source plus the sentinel
slot). -/
def zeroBytes : Fin (kNumDownloadSources + 1) → Nat := fun _ => 0

/-- The default `OmahaResponse` (empty strings, zero sizes, no URLs). -/
def defaultResponse : OmahaResponse :=
  { version := "", payload_size := 0, sha256_hex := "", metadata_size := 0,
    metadata_sig := "", payload_urls := [], is_delta_payload := false }

/-- The initial in-memory state: every field takes the default of the spec's
§3 table (integers 0, instants epoch, strings empty, lists empty, download
source the sentinel `kNumDownloadSources`). -/
def initState : PayloadState :=
  { response_ := defaultResponse, response_signature_ := "",
    payload_attempt_number_ := 0, full_payload_attempt_number_ := 0,
    url_index_ := 0, url_failure_count_ := 0, url_switch_count_ := 0,
    current_download_source_ := kNumDownloadSources,
    num_responses_seen_ := 0, num_reboots_ := 0, backoff_expiry_time_ := 0,
    update_timestamp_start_ := 0, update_timestamp_end_ := 0,
    update_duration_uptime_ := 0, update_duration_uptime_timestamp_ := 0,
    current_bytes_downloaded_ := zeroBytes, total_bytes_downloaded_ := zeroBytes,
    candidate_urls_ := [], rollback_version_ := "", prev_boot_id_ := "",
    system_updated_marker_ := none }

/-- Configuration constants passed at construction (spec §9): here only the
per-URL maximum failure count used by `IncrementFailureCount`. -/
structure Config where
  max_failure_count_per_url : Nat

/-- Modelled from the spec: `CalculateResponseSignature` (declared at
`payload_state.h` line 182, body not under `src/`).  Per spec §4.2 the
signature is the stable concatenation, with a separator, of the manifest
version, payload size, hash, metadata size, metadata signature and the
payload URLs in order. -/
def CalculateResponseSignature (r : OmahaResponse) : String :=
  String.intercalate "|"
    ([r.version, toString r.payload_size, r.sha256_hex,
      toString r.metadata_size, r.metadata_sig] ++ r.payload_urls)

/-- Modelled from the spec: `ComputeCandidateUrls` (declared at
`payload_state.h` line 312, body not under `src/`).  Per spec §4.2 it
retains, in order, the response's URLs allowed by the device-policy
predicate; no deduplication. -/
def ComputeCandidateUrls (policy : String → Bool) (r : OmahaResponse) :
    List String :=
  r.payload_urls.filter policy

/-- Translated from the header's inline body (`payload_state.h` lines
60–62): `candidate_urls_.size() ? candidate_urls_[url_index_] : ""`.
The unchecked `operator[]` access is modelled with `List.getD`; the C1
invariant shows the access is in bounds whenever the list is non-empty. -/
def GetCurrentUrl (s : PayloadState) : String :=
  if s.candidate_urls_.length ≠ 0 then s.candidate_urls_.getD s.url_index_ ""
  else ""

/-- Modelled from the spec: the mapping from the current URL to its
download source used by `UpdateCurrentDownloadSource` (declared at
`payload_state.h` lines 132–135, body not under `src/`): an `https` URL is
the `HttpsServer` source (0), an `http` URL the `HttpServer` source (1),
and anything else resolves to the sentinel `kNumDownloadSources`. -/
def sourceOfUrl (url : String) : Nat :=
  if String.startsWith url "https://" then 0
  else if String.startsWith url "http://" then 1
  else kNumDownloadSources

/-- Modelled from the spec: `UpdateCurrentDownloadSource`
(`payload_state.h` lines 132–135, body not under `src/`): refresh the
cached download source from the current URL; unknown URLs yield the
sentinel `kNumDownloadSources`. -/
def UpdateCurrentDownloadSource (s : PayloadState) : PayloadState :=
  { s with current_download_source_ := sourceOfUrl (GetCurrentUrl s) }

/-- Modelled from the spec: `IncrementPayloadAttemptNumber`
(`payload_state.h` lines 109–110, body not under `src/`). -/
def IncrementPayloadAttemptNumber (s : PayloadState) : PayloadState :=
  { s with payload_attempt_number_ := s.payload_attempt_number_ + 1 }

/-- Modelled from the spec: `IncrementFullPayloadAttemptNumber`
(`payload_state.h` lines 112–114, body not under `src/`). -/
def IncrementFullPayloadAttemptNumber (s : PayloadState) : PayloadState :=
  { s with full_payload_attempt_number_ := s.full_payload_attempt_number_ + 1 }

/-- One day in microseconds. -/
def dayUs : Nat := 86400000000

/-- Modelled from the spec: `UpdateBackoffExpiryTime` (`payload_state.h`
lines 128–130, body not under `src/`).  Per spec §4.4: based on
`full_payload_attempt_number` `n` (the header's own comment at lines
112–114 confirms the full-payload attempt number governs backoff); if
`n = 0` the expiry is cleared to the epoch, else the base duration is
`2^(n-1)` days capped at 16 days, a ±5% uniform random fuzz is applied, and
the expiry is the current wall-clock time plus the fuzzed duration.  The
random draw is modelled by the `fuzz` argument, clamped to the ±5% band
(5% of the base is `base / 20`; the base is divisible by 20). -/
def UpdateBackoffExpiryTime (now : Nat) (fuzz : Int) (s : PayloadState) :
    PayloadState :=
  if s.full_payload_attempt_number_ = 0 then
    { s with backoff_expiry_time_ := 0 }
  else
    let base : Nat := min (2 ^ (s.full_payload_attempt_number_ - 1)) 16 * dayUs
    let f5 : Int := (base : Int) / 20
    { s with backoff_expiry_time_ :=
        now + ((base : Int) + max (-f5) (min fuzz f5)).toNat }

/-- Modelled from the spec: `IncrementUrlIndex` (`payload_state.h` lines
116–121, body not under `src/`).  Per spec §4.3: advance `url_index` by 1;
when the next index is not below the candidate-list length, wrap to 0,
increment the payload attempt number and — when the payload is a full
payload — the full-payload attempt number, and update the backoff expiry.
On any advance increment `url_switch_count`, reset `url_failure_count` to
0 and refresh the current download source. -/
def IncrementUrlIndex (now : Nat) (fuzz : Int) (s : PayloadState) :
    PayloadState :=
  let s1 :=
    if s.url_index_ + 1 < s.candidate_urls_.length then
      { s with url_index_ := s.url_index_ + 1 }
    else
      let s0 := IncrementPayloadAttemptNumber { s with url_index_ := 0 }
      let s2 := if s.response_.is_delta_payload then s0
                else IncrementFullPayloadAttemptNumber s0
      UpdateBackoffExpiryTime now fuzz s2
  UpdateCurrentDownloadSource
    { s1 with url_switch_count_ := s1.url_switch_count_ + 1,
              url_failure_count_ := 0 }

/-- Modelled from the spec: `IncrementFailureCount` (`payload_state.h`
lines 123–126, body not under `src/`).  Increment `url_failure_count`; when
it reaches the configured per-URL maximum, advance the URL index (which
resets the failure count). -/
def IncrementFailureCount (cfg : Config) (now : Nat) (fuzz : Int)
    (s : PayloadState) : PayloadState :=
  if cfg.max_failure_count_per_url ≤ s.url_failure_count_ + 1 then
    IncrementUrlIndex now fuzz
      { s with url_failure_count_ := s.url_failure_count_ + 1 }
  else { s with url_failure_count_ := s.url_failure_count_ + 1 }

/-- Modelled from the spec: `ResetPersistedState` (`payload_state.h` lines
166–168, body not under `src/`).  Per spec §4.2(a) it zeroes every
response-scoped field — `payload_attempt_number`,
`full_payload_attempt_number`, `url_index`, `url_failure_count`,
`url_switch_count`, `backoff_expiry_time` and every
`current_bytes_downloaded` slot — and leaves `total_bytes_downloaded`,
`num_responses_seen`, `num_reboots`, `update_timestamp_start`,
`update_duration_uptime`, the response signature and `rollback_version`
untouched. -/
def ResetPersistedState (s : PayloadState) : PayloadState :=
  { s with payload_attempt_number_ := 0, full_payload_attempt_number_ := 0,
           url_index_ := 0, url_failure_count_ := 0, url_switch_count_ := 0,
           backoff_expiry_time_ := 0, current_bytes_downloaded_ := zeroBytes }

/-- Clamp a stored URL index into the range of a candidate list of length
`len` (spec §4.2 step 3 and the §3 table's "clamped on load"): an empty
list forces index 0, otherwise the index is lowered into `[0, len)`. -/
def clampUrlIndex (len idx : Nat) : Nat :=
  if len = 0 then 0 else min idx (len - 1)

/-- Modelled from the spec: `SetResponse` (`payload_state.h` line 36, body
not under `src/`).  Per spec §4.2: store the response, compute its
signature; on a resume of the same offer only recompute the candidate URLs
and clamp `url_index` into range; on a new offer run
`ResetPersistedState`, store the new signature, recompute candidate URLs,
increment `num_responses_seen`, set `update_timestamp_start` to the
current wall-clock time and re-anchor the uptime baseline. -/
def SetResponse (policy : String → Bool) (now nowMono : Nat)
    (r : OmahaResponse) (s : PayloadState) : PayloadState :=
  let new_sig := CalculateResponseSignature r
  if new_sig = s.response_signature_ then
    let urls := ComputeCandidateUrls policy r
    UpdateCurrentDownloadSource
      { s with response_ := r, candidate_urls_ := urls,
               url_index_ := clampUrlIndex urls.length s.url_index_ }
  else
    let urls := ComputeCandidateUrls policy r
    let s1 := ResetPersistedState { s with response_ := r }
    UpdateCurrentDownloadSource
      { s1 with response_signature_ := new_sig, candidate_urls_ := urls,
                num_responses_seen_ := s1.num_responses_seen_ + 1,
                update_timestamp_start_ := now,
                update_duration_uptime_timestamp_ := nowMono }

/-- Modelled from the spec: `DownloadComplete` (`payload_state.h` line 37,
body not under `src/`).  Per spec §4.3: increment the payload attempt
number (and, for a full payload, the full-payload attempt number) and
reset the per-URL failure count; metric emission is outside the state. -/
def DownloadComplete (s : PayloadState) : PayloadState :=
  let s1 := IncrementPayloadAttemptNumber s
  let s2 := if s.response_.is_delta_payload then s1
            else IncrementFullPayloadAttemptNumber s1
  { s2 with url_failure_count_ := 0 }

/-- The sentinel slot of the byte-counter arrays (`payload_state.h` lines
433–448: "The extra index in the array is to no-op accidental access"). -/
def sentinelSlot : Fin (kNumDownloadSources + 1) :=
  ⟨kNumDownloadSources, Nat.lt_succ_self _⟩

/-- Resolve a download-source value to a slot of the byte-counter arrays:
a valid source indexes its own slot, an out-of-range value resolves to the
sentinel slot (spec §4.5). -/
def sourceSlot (src : Nat) : Fin (kNumDownloadSources + 1) :=
  if h : src < kNumDownloadSources then ⟨src, Nat.lt_succ_of_lt h⟩
  else sentinelSlot

/-- Modelled from the spec: `UpdateBytesDownloaded` (`payload_state.h`
lines 137–139, body not under `src/`).  Per spec §4.5: add the byte count
to both the current and the total counter of the slot the current download
source resolves to. -/
def UpdateBytesDownloaded (count : Nat) (s : PayloadState) : PayloadState :=
  let slot := sourceSlot s.current_download_source_
  { s with
    current_bytes_downloaded_ :=
      Function.update s.current_bytes_downloaded_ slot
        (s.current_bytes_downloaded_ slot + count),
    total_bytes_downloaded_ :=
      Function.update s.total_bytes_downloaded_ slot
        (s.total_bytes_downloaded_ slot + count) }

/-- Modelled from the spec: `DownloadProgress` (`payload_state.h` line 38,
body not under `src/`): account the freshly downloaded bytes. -/
def DownloadProgress (count : Nat) (s : PayloadState) : PayloadState :=
  UpdateBytesDownloaded count s

/-- The error codes named by the spec's §4.3 classification table, plus a
catch-all for every other code (defaulting to retry-same-URL). -/
inductive ErrorCode where
  | kSuccess
  | kError
  | kOmahaError
  | kDownloadTransferError
  | kPayloadHashMismatchError
  | kDownloadMetadataSignatureMismatch
  | kSignedDeltaPayloadExpectedError
  | kOtherError
deriving DecidableEq

/-- The action an error classifies to (spec §4.3 and §7). -/
inductive FailureAction where
  | ignored
  | retrySameUrl
  | nextUrl
  | fatal
deriving DecidableEq

/-- Modelled from the spec: the §4.3 error classification table.
`kSuccess` is ignored; `kOmahaError`, `kPayloadHashMismatchError`,
`kDownloadMetadataSignatureMismatch` and `kSignedDeltaPayloadExpectedError`
skip to the next URL; `kDownloadTransferError` retries the same URL;
`kError` is a fatal internal error (§7: terminal, clear in-flight
counters, no URL advance); any other code defaults to retry-same-URL. -/
def classify : ErrorCode → FailureAction
  | ErrorCode.kSuccess => FailureAction.ignored
  | ErrorCode.kError => FailureAction.fatal
  | ErrorCode.kOmahaError => FailureAction.nextUrl
  | ErrorCode.kDownloadTransferError => FailureAction.retrySameUrl
  | ErrorCode.kPayloadHashMismatchError => FailureAction.nextUrl
  | ErrorCode.kDownloadMetadataSignatureMismatch => FailureAction.nextUrl
  | ErrorCode.kSignedDeltaPayloadExpectedError => FailureAction.nextUrl
  | ErrorCode.kOtherError => FailureAction.retrySameUrl

/-- Modelled from the spec: `UpdateFailed` (`payload_state.h` line 42, body
not under `src/`).  Per spec §4.3: a retryable network error increments the
failure count, an authoritative or payload-content rejection advances the
URL directly, a fatal error clears the attempt's current-bytes counters
and marks the terminal timestamp without advancing, and success codes are
ignored. -/
def UpdateFailed (cfg : Config) (now : Nat) (fuzz : Int) (e : ErrorCode)
    (s : PayloadState) : PayloadState :=
  match classify e with
  | FailureAction.ignored => s
  | FailureAction.retrySameUrl => IncrementFailureCount cfg now fuzz s
  | FailureAction.nextUrl => IncrementUrlIndex now fuzz s
  | FailureAction.fatal =>
      { s with current_bytes_downloaded_ := zeroBytes,
               update_timestamp_end_ := now }

/-- Modelled from the spec: `UpdateSucceeded` (`payload_state.h` line 41,
body not under `src/`).  Per spec §4.3 and §4.6: reset the response-scoped
counters and additionally `total_bytes_downloaded`, `num_responses_seen`
and `num_reboots`; set `update_timestamp_end` to the current wall-clock
time; clear the rollback version; write the current wall-clock time into
the system-updated marker key (`CreateSystemUpdatedMarkerFile`,
`payload_state.h` lines 339–341). -/
def UpdateSucceeded (now : Nat) (s : PayloadState) : PayloadState :=
  let s1 := ResetPersistedState s
  { s1 with total_bytes_downloaded_ := zeroBytes, num_responses_seen_ := 0,
            num_reboots_ := 0, update_timestamp_end_ := now,
            rollback_version_ := "", system_updated_marker_ := some now }

/-- Modelled from the spec: `UpdateResumed` (`payload_state.h` line 39,
body not under `src/`): re-anchor the uptime baseline; no counter
changes. -/
def UpdateResumed (nowMono : Nat) (s : PayloadState) : PayloadState :=
  { s with update_duration_uptime_timestamp_ := nowMono }

/-- Modelled from the spec: `UpdateRestarted` (`payload_state.h` line 40,
body not under `src/`): zero the current-bytes counters, set the update
start timestamp to now and re-anchor the uptime baseline. -/
def UpdateRestarted (now nowMono : Nat) (s : PayloadState) : PayloadState :=
  { s with current_bytes_downloaded_ := zeroBytes,
           update_timestamp_start_ := now,
           update_duration_uptime_timestamp_ := nowMono }

/-- Modelled from the spec: `Rollback` (`payload_state.h` line 45, body not
under `src/`).  Per spec §4.6: store the currently running OS version as
the powerwash-safe rollback version and reset the response-scoped counters
(the same set as `ResetPersistedState`). -/
def Rollback (runningVersion : String) (s : PayloadState) : PayloadState :=
  ResetPersistedState { s with rollback_version_ := runningVersion }

/-- Modelled from the spec: `ResetUpdateStatus` (`payload_state.h` line 43,
body not under `src/`).  Per spec §5: a cooperative "forget the in-flight
attempt" that zeroes the response-scoped counters without touching the
signature or the totals — the same reset as `ResetPersistedState`. -/
def ResetUpdateStatus (s : PayloadState) : PayloadState :=
  ResetPersistedState s

/-- Modelled from the spec: `UpdateNumReboots` (`payload_state.h` lines
335–337, body not under `src/`): when the current boot-id differs from the
persisted previous boot-id, increment `num_reboots` and store the new
boot-id. -/
def UpdateNumReboots (bootId : String) (s : PayloadState) : PayloadState :=
  if bootId = s.prev_boot_id_ then s
  else { s with num_reboots_ := s.num_reboots_ + 1, prev_boot_id_ := bootId }

/-- Modelled from the spec: `UpdateEngineStarted` (`payload_state.h` line
96, body not under `src/`).  Per spec §4.6 boot detection: run
`UpdateNumReboots`; the remaining startup work (failed-boot reporting,
marker handling) is metric emission and target-version bookkeeping outside
the fields treated here. -/
def UpdateEngineStarted (bootId : String) (s : PayloadState) : PayloadState :=
  UpdateNumReboots bootId s

/-- Translated from the header's inline body (`payload_state.h` lines
84–86): `source < kNumDownloadSources ? current_bytes_downloaded_[source]
: 0`. -/
def GetCurrentBytesDownloaded (s : PayloadState) (source : Nat) : Nat :=
  if h : source < kNumDownloadSources then
    s.current_bytes_downloaded_ ⟨source, Nat.lt_succ_of_lt h⟩
  else 0

/-- Translated from the header's inline body (`payload_state.h` lines
88–90): `source < kNumDownloadSources ? total_bytes_downloaded_[source]
: 0`. -/
def GetTotalBytesDownloaded (s : PayloadState) (source : Nat) : Nat :=
  if h : source < kNumDownloadSources then
    s.total_bytes_downloaded_ ⟨source, Nat.lt_succ_of_lt h⟩
  else 0

/-- Modelled from the spec: `GetPersistedValue` (`payload_state.h` lines
174–177, body not under `src/`).  Per spec §4.1 and §7: an integer read
validates non-negativity; an absent key or a negative stored value yields
the field's default, which is 0 for every non-negative integer field of
the §3 table.  The store is modelled as a partial map from keys to stored
integers. -/
def GetPersistedValue (store : String → Option Int) (key : String) : Int :=
  match store key with
  | none => 0
  | some v => if v < 0 then 0 else v

/-- An external event delivered to the core by the driver (spec §2),
carrying the environmental inputs the corresponding method reads: the
policy predicate, wall-clock and monotonic instants, the backoff fuzz
draw, the running OS version or the boot id. -/
inductive Event where
  | setResponse (policy : String → Bool) (now nowMono : Nat)
      (r : OmahaResponse)
  | downloadComplete
  | downloadProgress (count : Nat)
  | updateFailed (now : Nat) (fuzz : Int) (e : ErrorCode)
  | updateSucceeded (now : Nat)
  | updateResumed (nowMono : Nat)
  | updateRestarted (now nowMono : Nat)
  | rollback (runningVersion : String)
  | resetUpdateStatus
  | updateEngineStarted (bootId : String)

/-- Dispatch one event to the corresponding event method. -/
def step (cfg : Config) (s : PayloadState) : Event → PayloadState
  | Event.setResponse policy now nowMono r => SetResponse policy now nowMono r s
  | Event.downloadComplete => DownloadComplete s
  | Event.downloadProgress count => DownloadProgress count s
  | Event.updateFailed now fuzz e => UpdateFailed cfg now fuzz e s
  | Event.updateSucceeded now => UpdateSucceeded now s
  | Event.updateResumed nowMono => UpdateResumed nowMono s
  | Event.updateRestarted now nowMono => UpdateRestarted now nowMono s
  | Event.rollback runningVersion => Rollback runningVersion s
  | Event.resetUpdateStatus => ResetUpdateStatus s
  | Event.updateEngineStarted bootId => UpdateEngineStarted bootId s

/-- Run a sequence of events from the initial state. -/
def run (cfg : Config) (es : List Event) : PayloadState :=
  es.foldl (step cfg) initState

/-- Iterate `UpdateFailed` with a fixed error `k` times: a run of `k`
consecutive failures of the same kind. -/
def runFailures (cfg : Config) (now : Nat) (fuzz : Int) (e : ErrorCode) :
    Nat → PayloadState → PayloadState
  | 0, s => s
  | k + 1, s => UpdateFailed cfg now fuzz e (runFailures cfg now fuzz e k s)

/-- A concrete response used by witnesses: a full payload offered at two
URLs. -/
def respW : OmahaResponse :=
  { version := "1.2.3", payload_size := 1000, sha256_hex := "ab12",
    metadata_size := 10, metadata_sig := "msig",
    payload_urls := ["https://a.example/p", "http://b.example/p"],
    is_delta_payload := false }

/-- A device policy allowing every URL, used by witnesses. -/
def policyW : String → Bool := fun _ => true

/-- A concrete configuration used by witnesses: at most 2 failures per
URL (the spec's §8 concrete scenarios use this threshold). -/
def cfgW : Config := { max_failure_count_per_url := 2 }

/-- A concrete event sequence used by witnesses: a single new response. -/
def esW : List Event := [Event.setResponse policyW 100 100 respW]

/-- A concrete state whose stored signature matches `respW`, used by the
same-offer witness. -/
def sSameW : PayloadState :=
  { initState with response_signature_ := CalculateResponseSignature respW,
                   url_index_ := 5, candidate_urls_ := ["https://old/x"] }

/-- A concrete persisted store holding one negative value, used by the
persisted-read witness. -/
def storeW : String → Option Int :=
  fun k => if k = "current-url-index" then some (-7) else none

/-- The URL-index invariant of spec §3: `url_index < max(1, len(candidate_urls))`,
i.e. the index is 0 when the candidate list is empty and otherwise lies in
`[0, len)`. -/
def UrlIndexInv (s : PayloadState) : Prop :=
  s.url_index_ < max 1 s.candidate_urls_.length

instance (s : PayloadState) : Decidable (UrlIndexInv s) := by
  unfold UrlIndexInv; infer_instance

theorem ucds_url_index (s : PayloadState) :
    (UpdateCurrentDownloadSource s).url_index_ = s.url_index_ := by
  simp only [UpdateCurrentDownloadSource]

theorem ucds_candidate_urls (s : PayloadState) :
    (UpdateCurrentDownloadSource s).candidate_urls_ = s.candidate_urls_ := by
  simp only [UpdateCurrentDownloadSource]

theorem iui_url_index (now : Nat) (fuzz : Int) (s : PayloadState) :
    (IncrementUrlIndex now fuzz s).url_index_ =
      if s.url_index_ + 1 < s.candidate_urls_.length then s.url_index_ + 1
      else 0 := by
  simp only [IncrementUrlIndex, UpdateCurrentDownloadSource,
    UpdateBackoffExpiryTime, IncrementPayloadAttemptNumber,
    IncrementFullPayloadAttemptNumber, apply_ite PayloadState.url_index_,
    apply_ite PayloadState.full_payload_attempt_number_, ite_self]

theorem iui_candidate_urls (now : Nat) (fuzz : Int) (s : PayloadState) :
    (IncrementUrlIndex now fuzz s).candidate_urls_ = s.candidate_urls_ := by
  simp only [IncrementUrlIndex, UpdateCurrentDownloadSource,
    UpdateBackoffExpiryTime, IncrementPayloadAttemptNumber,
    IncrementFullPayloadAttemptNumber, apply_ite PayloadState.candidate_urls_,
    apply_ite PayloadState.full_payload_attempt_number_, ite_self]

theorem iui_url_switch_count (now : Nat) (fuzz : Int) (s : PayloadState) :
    (IncrementUrlIndex now fuzz s).url_switch_count_ =
      s.url_switch_count_ + 1 := by
  simp only [IncrementUrlIndex, UpdateCurrentDownloadSource,
    UpdateBackoffExpiryTime, IncrementPayloadAttemptNumber,
    IncrementFullPayloadAttemptNumber,
    apply_ite PayloadState.url_switch_count_,
    apply_ite PayloadState.full_payload_attempt_number_, ite_self]

theorem iui_url_failure_count (now : Nat) (fuzz : Int) (s : PayloadState) :
    (IncrementUrlIndex now fuzz s).url_failure_count_ = 0 := by
  simp only [IncrementUrlIndex, UpdateCurrentDownloadSource,
    UpdateBackoffExpiryTime, IncrementPayloadAttemptNumber,
    IncrementFullPayloadAttemptNumber,
    apply_ite PayloadState.url_failure_count_,
    apply_ite PayloadState.full_payload_attempt_number_, ite_self]

theorem iui_inv (now : Nat) (fuzz : Int) (s : PayloadState) :
    UrlIndexInv (IncrementUrlIndex now fuzz s) := by
  unfold UrlIndexInv
  rw [iui_url_index, iui_candidate_urls]
  split <;> omega

theorem ifc_url_switch_count (cfg : Config) (now : Nat) (fuzz : Int)
    (s : PayloadState) :
    (IncrementFailureCount cfg now fuzz s).url_switch_count_ =
      if cfg.max_failure_count_per_url ≤ s.url_failure_count_ + 1 then
        s.url_switch_count_ + 1
      else s.url_switch_count_ := by
  simp only [IncrementFailureCount,
    apply_ite PayloadState.url_switch_count_, iui_url_switch_count]

theorem ifc_url_failure_count (cfg : Config) (now : Nat) (fuzz : Int)
    (s : PayloadState) :
    (IncrementFailureCount cfg now fuzz s).url_failure_count_ =
      if cfg.max_failure_count_per_url ≤ s.url_failure_count_ + 1 then 0
      else s.url_failure_count_ + 1 := by
  simp only [IncrementFailureCount,
    apply_ite PayloadState.url_failure_count_, iui_url_failure_count]

theorem ifc_inv (cfg : Config) (now : Nat) (fuzz : Int) (s : PayloadState)
    (h : UrlIndexInv s) :
    UrlIndexInv (IncrementFailureCount cfg now fuzz s) := by
  unfold IncrementFailureCount
  split
  · exact iui_inv now fuzz _
  · exact h

theorem setResponse_inv (policy : String → Bool) (now nowMono : Nat)
    (r : OmahaResponse) (s : PayloadState) :
    UrlIndexInv (SetResponse policy now nowMono r s) := by
  unfold UrlIndexInv
  by_cases h : CalculateResponseSignature r = s.response_signature_
  · simp only [SetResponse, h, if_pos, UpdateCurrentDownloadSource,
      eq_self_iff_true, if_true]
    unfold clampUrlIndex
    split <;> omega
  · simp only [SetResponse, if_neg h, UpdateCurrentDownloadSource,
      ResetPersistedState]
    omega

theorem step_inv (cfg : Config) (s : PayloadState) (e : Event)
    (h : UrlIndexInv s) : UrlIndexInv (step cfg s e) := by
  cases e with
  | setResponse policy now nowMono r =>
      exact setResponse_inv policy now nowMono r s
  | downloadComplete =>
      show UrlIndexInv (DownloadComplete s)
      unfold UrlIndexInv at *
      simp only [DownloadComplete, IncrementPayloadAttemptNumber,
        IncrementFullPayloadAttemptNumber, apply_ite PayloadState.url_index_,
        apply_ite PayloadState.candidate_urls_, ite_self]
      exact h
  | downloadProgress count => exact h
  | updateFailed now fuzz e =>
      show UrlIndexInv (UpdateFailed cfg now fuzz e s)
      unfold UpdateFailed
      cases classify e with
      | ignored => exact h
      | retrySameUrl => exact ifc_inv cfg now fuzz s h
      | nextUrl => exact iui_inv now fuzz s
      | fatal => exact h
  | updateSucceeded now =>
      show UrlIndexInv (UpdateSucceeded now s)
      unfold UrlIndexInv UpdateSucceeded ResetPersistedState
      show (0 : Nat) < _
      omega
  | updateResumed nowMono => exact h
  | updateRestarted now nowMono => exact h
  | rollback runningVersion =>
      show UrlIndexInv (Rollback runningVersion s)
      unfold UrlIndexInv Rollback ResetPersistedState
      show (0 : Nat) < _
      omega
  | resetUpdateStatus =>
      show UrlIndexInv (ResetUpdateStatus s)
      unfold UrlIndexInv ResetUpdateStatus ResetPersistedState
      show (0 : Nat) < _
      omega
  | updateEngineStarted bootId =>
      show UrlIndexInv (UpdateEngineStarted bootId s)
      unfold UrlIndexInv UpdateEngineStarted UpdateNumReboots at *
      split
      · exact h
      · exact h

theorem run_inv (cfg : Config) (es : List Event) : UrlIndexInv (run cfg es) := by
  unfold run
  induction es using List.reverseRecOn with
  | nil => show UrlIndexInv initState; decide
  | append_singleton es e ih =>
      rw [List.foldl_append]
      exact step_inv cfg _ e ih

theorem inv_getCurrentUrl (s : PayloadState) (h : UrlIndexInv s) :
    (s.candidate_urls_ = [] → s.url_index_ = 0 ∧ GetCurrentUrl s = "") ∧
    (s.candidate_urls_ ≠ [] →
      ∃ hlt : s.url_index_ < s.candidate_urls_.length,
        GetCurrentUrl s = s.candidate_urls_.get ⟨s.url_index_, hlt⟩) := by
  unfold UrlIndexInv at h
  constructor
  · intro he
    rw [he] at h
    simp only [List.length_nil] at h
    refine ⟨by omega, ?_⟩
    unfold GetCurrentUrl
    rw [he]
    simp
  · intro hne
    have hlen : 0 < s.candidate_urls_.length := List.length_pos.mpr hne
    have hlt : s.url_index_ < s.candidate_urls_.length := by omega
    refine ⟨hlt, ?_⟩
    unfold GetCurrentUrl
    rw [if_pos (by omega), List.getD_eq_get _ _ hlt]

/-- C1: for every sequence of event-method calls, the resulting state has
`url_index = 0` when `candidate_urls` is empty and otherwise
`url_index ∈ [0, len(candidate_urls))`; consequently `GetCurrentUrl`
(translated from `payload_state.h` lines 60–62) returns the empty string
when the candidate list is empty and the in-bounds element
`candidate_urls[url_index]` otherwise. -/
theorem C1_url_index_invariant (cfg : Config) (es : List Event) :
    UrlIndexInv (run cfg es) ∧
    ((run cfg es).candidate_urls_ = [] →
      (run cfg es).url_index_ = 0 ∧ GetCurrentUrl (run cfg es) = "") ∧
    ((run cfg es).candidate_urls_ ≠ [] →
      ∃ hlt : (run cfg es).url_index_ < (run cfg es).candidate_urls_.length,
        GetCurrentUrl (run cfg es) =
          (run cfg es).candidate_urls_.get ⟨(run cfg es).url_index_, hlt⟩) :=
  ⟨run_inv cfg es, inv_getCurrentUrl (run cfg es) (run_inv cfg es)⟩

theorem C1_url_index_invariant_witness :
    (run cfgW esW).candidate_urls_ ≠ [] ∧
    (run cfgW esW).url_index_ < (run cfgW esW).candidate_urls_.length ∧
    GetCurrentUrl (run cfgW esW) = "https://a.example/p" := by
  have hne : (run cfgW esW).candidate_urls_ ≠ [] := by decide
  obtain ⟨hlt, heq⟩ := (C1_url_index_invariant cfgW esW).2.2 hne
  exact ⟨hne, hlt, by decide⟩

/-- C2: for every state and every response whose computed signature differs
from the stored `response_signature`, `SetResponse` increments
`num_responses_seen` by exactly 1, resets the response-scoped fields
(`payload_attempt_number`, `full_payload_attempt_number`, `url_index`,
`url_failure_count`, `url_switch_count`, `backoff_expiry_time` and every
`current_bytes_downloaded` slot) to their defaults, and leaves every
`total_bytes_downloaded` slot and `rollback_version` unchanged. -/
theorem C2_new_response_resets (policy : String → Bool) (now nowMono : Nat)
    (r : OmahaResponse) (s : PayloadState)
    (h : CalculateResponseSignature r ≠ s.response_signature_) :
    (SetResponse policy now nowMono r s).num_responses_seen_ =
      s.num_responses_seen_ + 1 ∧
    (SetResponse policy now nowMono r s).payload_attempt_number_ = 0 ∧
    (SetResponse policy now nowMono r s).full_payload_attempt_number_ = 0 ∧
    (SetResponse policy now nowMono r s).url_index_ = 0 ∧
    (SetResponse policy now nowMono r s).url_failure_count_ = 0 ∧
    (SetResponse policy now nowMono r s).url_switch_count_ = 0 ∧
    (SetResponse policy now nowMono r s).backoff_expiry_time_ = 0 ∧
    (SetResponse policy now nowMono r s).current_bytes_downloaded_ =
      zeroBytes ∧
    (SetResponse policy now nowMono r s).total_bytes_downloaded_ =
      s.total_bytes_downloaded_ ∧
    (SetResponse policy now nowMono r s).rollback_version_ =
      s.rollback_version_ := by
  simp [SetResponse, if_neg h, UpdateCurrentDownloadSource,
    ResetPersistedState]

theorem C2_new_response_resets_witness :
    CalculateResponseSignature respW ≠ initState.response_signature_ ∧
    (SetResponse policyW 100 100 respW initState).num_responses_seen_ = 1 := by
  have h : CalculateResponseSignature respW ≠ initState.response_signature_ :=
    by decide
  exact ⟨h, (C2_new_response_resets policyW 100 100 respW initState h).1⟩

/-- C6: for every state and every response whose computed signature equals
the stored `response_signature`, `SetResponse` changes no persisted
integer field except possibly `url_index`, which is only clamped down into
the range of the recomputed candidate URL list. -/
theorem C6_same_response_frame (policy : String → Bool) (now nowMono : Nat)
    (r : OmahaResponse) (s : PayloadState)
    (h : CalculateResponseSignature r = s.response_signature_) :
    (SetResponse policy now nowMono r s).payload_attempt_number_ =
      s.payload_attempt_number_ ∧
    (SetResponse policy now nowMono r s).full_payload_attempt_number_ =
      s.full_payload_attempt_number_ ∧
    (SetResponse policy now nowMono r s).url_failure_count_ =
      s.url_failure_count_ ∧
    (SetResponse policy now nowMono r s).url_switch_count_ =
      s.url_switch_count_ ∧
    (SetResponse policy now nowMono r s).num_responses_seen_ =
      s.num_responses_seen_ ∧
    (SetResponse policy now nowMono r s).backoff_expiry_time_ =
      s.backoff_expiry_time_ ∧
    (SetResponse policy now nowMono r s).current_bytes_downloaded_ =
      s.current_bytes_downloaded_ ∧
    (SetResponse policy now nowMono r s).total_bytes_downloaded_ =
      s.total_bytes_downloaded_ ∧
    (SetResponse policy now nowMono r s).url_index_ ≤ s.url_index_ ∧
    (SetResponse policy now nowMono r s).url_index_ <
      max 1 (SetResponse policy now nowMono r s).candidate_urls_.length := by
  refine ⟨?_, ?_, ?_, ?_, ?_, ?_, ?_, ?_, ?_, ?_⟩ <;>
    simp only [SetResponse, if_pos h, UpdateCurrentDownloadSource] <;>
    unfold clampUrlIndex <;> split <;> omega

theorem C6_same_response_frame_witness :
    CalculateResponseSignature respW = sSameW.response_signature_ ∧
    (SetResponse policyW 100 100 respW sSameW).num_responses_seen_ =
      sSameW.num_responses_seen_ ∧
    (SetResponse policyW 100 100 respW sSameW).url_index_ ≤
      sSameW.url_index_ := by
  have h : CalculateResponseSignature respW = sSameW.response_signature_ :=
    by decide
  have hc := C6_same_response_frame policyW 100 100 respW sSameW h
  exact ⟨h, hc.2.2.2.2.1, hc.2.2.2.2.2.2.2.2.1⟩

theorem uf_retry (cfg : Config) (now : Nat) (fuzz : Int) (e : ErrorCode)
    (s : PayloadState) (he : classify e = FailureAction.retrySameUrl) :
    UpdateFailed cfg now fuzz e s = IncrementFailureCount cfg now fuzz s := by
  unfold UpdateFailed
  rw [he]

/-- C3: `IncrementFailureCount` increments `url_failure_count` and, when
the count reaches the configured per-URL threshold `T`, advances the URL
index (resetting the failure count and incrementing `url_switch_count`);
hence a run of `k` consecutive retryable failures starting from
`url_failure_count = 0` advances the URL index — counted by
`url_switch_count`, which `IncrementUrlIndex` increments exactly once per
advance — exactly `⌊k/T⌋` times, leaving `url_failure_count = k mod T`. -/
theorem C3_failure_streak (cfg : Config)
    (hT : 0 < cfg.max_failure_count_per_url)
    (e : ErrorCode) (he : classify e = FailureAction.retrySameUrl)
    (now : Nat) (fuzz : Int) (s : PayloadState)
    (h0 : s.url_failure_count_ = 0) (k : Nat) :
    (runFailures cfg now fuzz e k s).url_switch_count_ =
      s.url_switch_count_ + k / cfg.max_failure_count_per_url ∧
    (runFailures cfg now fuzz e k s).url_failure_count_ =
      k % cfg.max_failure_count_per_url := by
  induction k with
  | zero =>
      simp [runFailures, h0, Nat.zero_div, Nat.zero_mod]
  | succ k ih =>
      obtain ⟨ihs, ihf⟩ := ih
      set T := cfg.max_failure_count_per_url with hTdef
      have hstep : runFailures cfg now fuzz e (k + 1) s =
          IncrementFailureCount cfg now fuzz (runFailures cfg now fuzz e k s) := by
        show UpdateFailed cfg now fuzz e _ = _
        exact uf_retry cfg now fuzz e _ he
      have hmlt : k % T < T := Nat.mod_lt _ hT
      have hk1 : k + 1 = T * (k / T) + (k % T + 1) := by
        rw [← Nat.add_assoc, Nat.div_add_mod]
      rw [hstep, ifc_url_switch_count, ifc_url_failure_count, ihs, ihf]
      by_cases hc : k % T + 1 = T
      · have h1 : k + 1 = T * (k / T + 1) := by
          rw [hk1, hc, Nat.mul_succ]
        have hdiv : (k + 1) / T = k / T + 1 := by
          rw [h1, Nat.mul_div_cancel_left _ hT]
        have hmod : (k + 1) % T = 0 := by
          rw [h1]
          exact Nat.mul_mod_right T _
        constructor
        · rw [if_pos (by omega), hdiv]
          exact Nat.add_assoc _ _ _
        · rw [if_pos (by omega), hmod]
      · have h2 : k % T + 1 < T := by omega
        have hdiv : (k + 1) / T = k / T := by
          rw [hk1, Nat.mul_add_div hT, Nat.div_eq_of_lt h2, Nat.add_zero]
        have hmod : (k + 1) % T = k % T + 1 := by
          rw [hk1, Nat.mul_add_mod, Nat.mod_eq_of_lt h2]
        constructor
        · rw [if_neg (by omega), hdiv]
        · rw [if_neg (by omega), hmod]

theorem C3_failure_streak_witness :
    0 < cfgW.max_failure_count_per_url ∧
    classify ErrorCode.kDownloadTransferError = FailureAction.retrySameUrl ∧
    initState.url_failure_count_ = 0 ∧
    (runFailures cfgW 0 0 ErrorCode.kDownloadTransferError 5
      initState).url_switch_count_ = 2 ∧
    (runFailures cfgW 0 0 ErrorCode.kDownloadTransferError 5
      initState).url_failure_count_ = 1 := by
  have h := C3_failure_streak cfgW (by decide) ErrorCode.kDownloadTransferError
    (by decide) 0 0 initState (by decide) 5
  exact ⟨by decide, by decide, by decide, h.1, h.2⟩

/-- C4: after any event sequence ending in `UpdateSucceeded`, the
response-scoped counters, both byte-counter arrays (every slot) and
`num_responses_seen` are zero, `rollback_version` is empty,
`update_timestamp_end` is the event's wall-clock time, and the
system-updated marker key holds that wall-clock time. -/
theorem C4_update_succeeded_resets (cfg : Config) (es : List Event)
    (now : Nat) :
    (run cfg (es ++ [Event.updateSucceeded now])).payload_attempt_number_ = 0 ∧
    (run cfg (es ++ [Event.updateSucceeded now])).full_payload_attempt_number_
      = 0 ∧
    (run cfg (es ++ [Event.updateSucceeded now])).url_index_ = 0 ∧
    (run cfg (es ++ [Event.updateSucceeded now])).url_failure_count_ = 0 ∧
    (run cfg (es ++ [Event.updateSucceeded now])).url_switch_count_ = 0 ∧
    (run cfg (es ++ [Event.updateSucceeded now])).current_bytes_downloaded_ =
      zeroBytes ∧
    (run cfg (es ++ [Event.updateSucceeded now])).total_bytes_downloaded_ =
      zeroBytes ∧
    (run cfg (es ++ [Event.updateSucceeded now])).num_responses_seen_ = 0 ∧
    (run cfg (es ++ [Event.updateSucceeded now])).rollback_version_ = "" ∧
    (run cfg (es ++ [Event.updateSucceeded now])).update_timestamp_end_ =
      now ∧
    (run cfg (es ++ [Event.updateSucceeded now])).system_updated_marker_ =
      some now := by
  have hrun : run cfg (es ++ [Event.updateSucceeded now]) =
      UpdateSucceeded now (run cfg es) := by
    unfold run
    rw [List.foldl_append]
    rfl
  rw [hrun]
  simp [UpdateSucceeded, ResetPersistedState]

/-- Bounds for the fuzzed backoff duration: with a base of `m` days
(`m ≥ 1`) the clamped ±5% fuzz keeps the duration inside
`[0.95 · m · dayUs, 1.05 · m · dayUs]`, in particular positive. -/
theorem backoff_bounds (fuzz : Int) (m : Nat) (hm1 : 1 ≤ m) :
    19 * (m * dayUs) / 20 ≤
      (((m * dayUs : Nat) : Int) +
        max (-(((m * dayUs : Nat) : Int) / 20))
          (min fuzz (((m * dayUs : Nat) : Int) / 20))).toNat ∧
    (((m * dayUs : Nat) : Int) +
        max (-(((m * dayUs : Nat) : Int) / 20))
          (min fuzz (((m * dayUs : Nat) : Int) / 20))).toNat ≤
      21 * (m * dayUs) / 20 ∧
    0 < (((m * dayUs : Nat) : Int) +
        max (-(((m * dayUs : Nat) : Int) / 20))
          (min fuzz (((m * dayUs : Nat) : Int) / 20))).toNat := by
  simp only [dayUs]
  omega

/-- C5: `UpdateBackoffExpiryTime` clears the expiry to the epoch when
`full_payload_attempt_number = 0`; for `n ≥ 1` the expiry is `now + d`
with `d` in the closed interval `[0.95·b, 1.05·b]` where the base `b` is
`2^(n-1)` days capped at 16 days (the bounds `19·b/20` and `21·b/20` are
exact: `b` is a multiple of 20 microseconds), so the expiry is strictly
greater than `now`. -/
theorem C5_backoff_expiry (now : Nat) (fuzz : Int) (s : PayloadState) :
    (s.full_payload_attempt_number_ = 0 →
      (UpdateBackoffExpiryTime now fuzz s).backoff_expiry_time_ = 0) ∧
    (1 ≤ s.full_payload_attempt_number_ →
      ∃ d : Nat,
        (UpdateBackoffExpiryTime now fuzz s).backoff_expiry_time_ = now + d ∧
        19 * (min (2 ^ (s.full_payload_attempt_number_ - 1)) 16 * dayUs) / 20
          ≤ d ∧
        d ≤
          21 * (min (2 ^ (s.full_payload_attempt_number_ - 1)) 16 * dayUs) / 20
          ∧
        now < (UpdateBackoffExpiryTime now fuzz s).backoff_expiry_time_) := by
  constructor
  · intro h
    unfold UpdateBackoffExpiryTime
    rw [if_pos h]
  · intro h
    have hne : s.full_payload_attempt_number_ ≠ 0 := by omega
    have hm1 : 1 ≤ min (2 ^ (s.full_payload_attempt_number_ - 1)) 16 := by
      refine le_min_iff.mpr ⟨?_, by norm_num⟩
      exact Nat.two_pow_pos _
    have hb := backoff_bounds fuzz
      (min (2 ^ (s.full_payload_attempt_number_ - 1)) 16) hm1
    unfold UpdateBackoffExpiryTime
    rw [if_neg hne]
    exact ⟨_, rfl, hb.1, hb.2.1, Nat.lt_add_of_pos_right hb.2.2⟩

theorem C5_backoff_expiry_witness :
    1 ≤ ({ initState with full_payload_attempt_number_ := 3 } :
        PayloadState).full_payload_attempt_number_ ∧
    (UpdateBackoffExpiryTime 1000 0
        { initState with full_payload_attempt_number_ := 3 }
      ).backoff_expiry_time_ = 1000 + 4 * dayUs ∧
    1000 < (UpdateBackoffExpiryTime 1000 0
        { initState with full_payload_attempt_number_ := 3 }
      ).backoff_expiry_time_ := by
  have h := (C5_backoff_expiry 1000 0
    { initState with full_payload_attempt_number_ := 3 }).2 (by decide)
  obtain ⟨d, heq, hlo, hhi, hpos⟩ := h
  exact ⟨by decide, by decide, hpos⟩

/-- C7: for every source value at or beyond `kNumDownloadSources`, the two
getters (translated from `payload_state.h` lines 84–90) return 0, and a
byte-accounting write whose current download source is out of range lands
in the sentinel slot of both counter arrays, leaving every valid source's
counters unchanged. -/
theorem C7_sentinel_slot (s : PayloadState) (src : Nat)
    (h : kNumDownloadSources ≤ src) (count : Nat) :
    GetCurrentBytesDownloaded s src = 0 ∧
    GetTotalBytesDownloaded s src = 0 ∧
    (s.current_download_source_ = src →
      (UpdateBytesDownloaded count s).current_bytes_downloaded_ sentinelSlot =
        s.current_bytes_downloaded_ sentinelSlot + count ∧
      (UpdateBytesDownloaded count s).total_bytes_downloaded_ sentinelSlot =
        s.total_bytes_downloaded_ sentinelSlot + count ∧
      ∀ v : Fin (kNumDownloadSources + 1), v.val < kNumDownloadSources →
        (UpdateBytesDownloaded count s).current_bytes_downloaded_ v =
          s.current_bytes_downloaded_ v ∧
        (UpdateBytesDownloaded count s).total_bytes_downloaded_ v =
          s.total_bytes_downloaded_ v) := by
  refine ⟨?_, ?_, ?_⟩
  · unfold GetCurrentBytesDownloaded
    rw [dif_neg (by omega)]
  · unfold GetTotalBytesDownloaded
    rw [dif_neg (by omega)]
  · intro hsrc
    have hslot : sourceSlot s.current_download_source_ = sentinelSlot := by
      unfold sourceSlot
      rw [dif_neg (by omega)]
    have hupd : ∀ v : Fin (kNumDownloadSources + 1),
        (UpdateBytesDownloaded count s).current_bytes_downloaded_ v =
          Function.update s.current_bytes_downloaded_ sentinelSlot
            (s.current_bytes_downloaded_ sentinelSlot + count) v ∧
        (UpdateBytesDownloaded count s).total_bytes_downloaded_ v =
          Function.update s.total_bytes_downloaded_ sentinelSlot
            (s.total_bytes_downloaded_ sentinelSlot + count) v := by
      intro v
      constructor <;> simp only [UpdateBytesDownloaded, hslot]
    refine ⟨?_, ?_, ?_⟩
    · rw [(hupd sentinelSlot).1, Function.update_same]
    · rw [(hupd sentinelSlot).2, Function.update_same]
    · intro v hv
      have hne : v ≠ sentinelSlot := by
        intro hcontra
        rw [hcontra] at hv
        exact absurd hv (by decide)
      constructor
      · rw [(hupd v).1, Function.update_noteq hne]
      · rw [(hupd v).2, Function.update_noteq hne]

theorem C7_sentinel_slot_witness :
    kNumDownloadSources ≤ initState.current_download_source_ ∧
    GetCurrentBytesDownloaded initState initState.current_download_source_
      = 0 ∧
    (UpdateBytesDownloaded 7 initState).current_bytes_downloaded_
      sentinelSlot = 7 := by
  have h := C7_sentinel_slot initState kNumDownloadSources (by decide) 7
  exact ⟨by decide, h.1, (h.2.2 (by decide)).1⟩

/-- C8: `GetPersistedValue` never yields a negative value: an absent key
or a negative stored value yields the default 0 (the default of every
non-negative integer field of the spec's §3 table), and a non-negative
stored value is returned unchanged. -/
theorem C8_persisted_reads (store : String → Option Int) (key : String) :
    0 ≤ GetPersistedValue store key ∧
    (store key = none → GetPersistedValue store key = 0) ∧
    (∀ v : Int, store key = some v → v < 0 →
      GetPersistedValue store key = 0) ∧
    (∀ v : Int, store key = some v → 0 ≤ v →
      GetPersistedValue store key = v) := by
  refine ⟨?_, ?_, ?_, ?_⟩
  · rcases hsk : store key with _ | v
    · simp [GetPersistedValue, hsk]
    · simp only [GetPersistedValue, hsk]
      split <;> omega
  · intro hnone
    simp [GetPersistedValue, hnone]
  · intro v hv hneg
    simp only [GetPersistedValue, hv]
    rw [if_pos hneg]
  · intro v hv hnn
    simp only [GetPersistedValue, hv]
    rw [if_neg (by omega)]

theorem C8_persisted_reads_witness :
    storeW "current-url-index" = some (-7) ∧
    GetPersistedValue storeW "current-url-index" = 0 ∧
    0 ≤ GetPersistedValue storeW "num-reboots" := by
  refine ⟨by decide, ?_, (C8_persisted_reads storeW "num-reboots").1⟩
  exact (C8_persisted_reads storeW "current-url-index").2.2.1 (-7)
    (by decide) (by decide)

/-- C9: `ResetUpdateStatus` is idempotent — applying it twice equals
applying it once — and it zeroes the response-scoped counters while
leaving `response_signature` and the total byte counters unchanged. -/
theorem C9_reset_update_status_idempotent (s : PayloadState) :
    ResetUpdateStatus (ResetUpdateStatus s) = ResetUpdateStatus s ∧
    (ResetUpdateStatus s).payload_attempt_number_ = 0 ∧
    (ResetUpdateStatus s).full_payload_attempt_number_ = 0 ∧
    (ResetUpdateStatus s).url_index_ = 0 ∧
    (ResetUpdateStatus s).url_failure_count_ = 0 ∧
    (ResetUpdateStatus s).url_switch_count_ = 0 ∧
    (ResetUpdateStatus s).backoff_expiry_time_ = 0 ∧
    (ResetUpdateStatus s).current_bytes_downloaded_ = zeroBytes ∧
    (ResetUpdateStatus s).response_signature_ = s.response_signature_ ∧
    (ResetUpdateStatus s).total_bytes_downloaded_ =
      s.total_bytes_downloaded_ := by
  simp [ResetUpdateStatus, ResetPersistedState]

/-- C10: `UpdateEngineStarted` (via `UpdateNumReboots`) increments
`num_reboots` exactly when the current boot-id differs from the persisted
previous boot-id — for every state, whether or not an update attempt is in
progress — and stores the new boot-id; a matching boot-id leaves the state
unchanged. -/
theorem C10_num_reboots (s : PayloadState) (bootId : String) :
    (bootId ≠ s.prev_boot_id_ →
      (UpdateEngineStarted bootId s).num_reboots_ = s.num_reboots_ + 1 ∧
      (UpdateEngineStarted bootId s).prev_boot_id_ = bootId) ∧
    (bootId = s.prev_boot_id_ → UpdateEngineStarted bootId s = s) := by
  unfold UpdateEngineStarted UpdateNumReboots
  constructor
  · intro h
    rw [if_neg h]
    exact ⟨rfl, rfl⟩
  · intro h
    rw [if_pos h]

theorem C10_num_reboots_witness :
    "boot-2" ≠ initState.prev_boot_id_ ∧
    (UpdateEngineStarted "boot-2" initState).num_reboots_ = 1 ∧
    (UpdateEngineStarted "boot-2" initState).prev_boot_id_ = "boot-2" := by
  have h := (C10_num_reboots initState "boot-2").1 (by decide)
  exact ⟨by decide, h.1, h.2⟩

end UpdateEngine
